import Mathlib

/-!
Verification development for the go-backend-valos-id user-management service.

The definitions below are a shallow embedding of the source files:
the user repository (core/user/repository), the generated query layer it
drives (db/queries/users.sql over the schema in the README: id SERIAL
PRIMARY KEY, username UNIQUE, email UNIQUE), the HTTP handlers
(core/user/handler/user.go) and the middleware chain
(core/middleware/middleware.go, wired in core/server).

Go error values that cross the repository boundary are modelled by the
GoError type: the pgx driver error pgconn.PgError with its Code, Message
and ConstraintName fields, the database/sql sentinel ErrNoRows, and any
other driver failure.  The generated query layer itself is not under the
source tree; its semantics are modelled from the SQL text in
db/queries/users.sql together with the table schema, and its no-row
failure is modelled as the ErrNoRows sentinel that the repository and the
handlers compare against.
-/

namespace Valos

/-- A user row, mirroring core/user/model User: ID int32, Username, Email,
Password, CreatedAt, UpdatedAt.  Timestamps are modelled as naturals. -/
structure User where
  id : Int
  username : String
  email : String
  password : String
  createdAt : Nat
  updatedAt : Nat
deriving Repr, DecidableEq

/-- The users table plus the SERIAL sequence that assigns fresh ids. -/
structure UsersDb where
  rows : List User
  nextId : Int
deriving Repr, DecidableEq

/-- Go error values observed across the repository boundary:
pgconn.PgError carries Code, Message and ConstraintName; sqlErrNoRows is
the database/sql ErrNoRows sentinel; driverFailure stands for any other
storage-driver failure (network, syntax, ...). -/
inductive GoError where
  | pgError (code : String) (message : String) (constraintName : String)
  | sqlErrNoRows
  | driverFailure (msg : String)
deriving Repr, DecidableEq

/-- Every GoError constructor is a raw storage-driver error value
(pgconn.PgError from pgx, ErrNoRows from database/sql, or another driver
failure); the Go sources declare no domain error taxonomy type. -/
def isRawDriverError : GoError → Bool
  | GoError.pgError _ _ _ => true
  | GoError.sqlErrNoRows => true
  | GoError.driverFailure _ => true

/-- PostgreSQL duplicate-key message used by the storage layer. -/
def dupKeyMsg : String := "duplicate key value violates unique constraint"

/-- Query layer CreateUser (users.sql lines 1-4) over the schema: rejects a
duplicate username or email with a unique-violation PgError naming the
violated constraint, otherwise inserts with the next SERIAL id. -/
def sqlcCreateUser (db : UsersDb) (username email password : String) (ts : Nat) :
    Except GoError (User × UsersDb) :=
  if db.rows.any (fun r => r.username == username) then
    Except.error (GoError.pgError "23505" dupKeyMsg "users_username_key")
  else if db.rows.any (fun r => r.email == email) then
    Except.error (GoError.pgError "23505" dupKeyMsg "users_email_key")
  else
    let u : User :=
      { id := db.nextId, username := username, email := email,
        password := password, createdAt := ts, updatedAt := ts }
    Except.ok (u, { rows := db.rows ++ [u], nextId := db.nextId + 1 })

/-- Query layer GetUserByID (users.sql lines 6-9): the single matching row,
or the no-rows sentinel. -/
def sqlcGetUserByID (db : UsersDb) (id : Int) : Except GoError User :=
  match db.rows.find? (fun r => r.id == id) with
  | some r => Except.ok r
  | none => Except.error GoError.sqlErrNoRows

/-- Row transformation performed by the UpdateUser statement (users.sql
lines 21-24): SET username, email, updated_at on the row whose id matches;
every other row is left alone. -/
def updRow (id : Int) (username email : String) (ts : Nat) (r : User) : User :=
  if r.id == id then { r with username := username, email := email, updatedAt := ts }
  else r

/-- Query layer UpdateUser: an exec statement, so updating zero rows is not
an error; a new username or email colliding with a different row raises a
unique-violation PgError naming the constraint. -/
def sqlcUpdateUser (db : UsersDb) (id : Int) (username email : String) (ts : Nat) :
    Except GoError UsersDb :=
  if db.rows.all (fun r => r.id != id) then
    Except.ok db
  else if db.rows.any (fun r => r.id != id && r.username == username) then
    Except.error (GoError.pgError "23505" dupKeyMsg "users_username_key")
  else if db.rows.any (fun r => r.id != id && r.email == email) then
    Except.error (GoError.pgError "23505" dupKeyMsg "users_email_key")
  else
    Except.ok { db with rows := db.rows.map (updRow id username email ts) }

/-- Query layer DeleteUser (users.sql lines 31-32): an exec statement that
removes the matching row and reports no error when nothing matched. -/
def sqlcDeleteUser (db : UsersDb) (id : Int) : Except GoError UsersDb :=
  Except.ok { db with rows := db.rows.filter (fun r => r.id != id) }

/-- Query layer UserExists (users.sql lines 34-35). -/
def sqlcUserExists (db : UsersDb) (email : String) : Bool :=
  db.rows.any (fun r => r.email == email)

/-- Query layer CountUsers (users.sql lines 43-44). -/
def sqlcCountUsers (db : UsersDb) : Int :=
  db.rows.length

/-- Error mapping performed by UserRepository.CreateUser and
UserRepository.UpdateUser (repository lines 48-64 and 156-172): a PgError
with code 23505 whose constraint name matches the email or username
uniqueness rule is replaced by a freshly built PgError with code 23505, a
descriptive message, and no constraint name; every other error is returned
unchanged. -/
def mapUniqueViolation (e : GoError) : GoError :=
  match e with
  | GoError.pgError code _ cname =>
    if code == "23505" then
      if cname == "users_email_unique" || cname == "users_email_key" then
        GoError.pgError "23505" "user with this email already exists" ""
      else if cname == "users_username_unique" || cname == "users_username_key" then
        GoError.pgError "23505" "user with this username already exists" ""
      else e
    else e
  | _ => e

/-- UserRepository.CreateUser (repository lines 29-72): runs the insert at
timestamp now, maps uniqueness violations, and on success hands back the
created row (the Go code copies id and the timestamps into the model). -/
def repoCreateUser (db : UsersDb) (now : Nat) (username email password : String) :
    Except GoError (User × UsersDb) :=
  match sqlcCreateUser db username email password now with
  | Except.error e => Except.error (mapUniqueViolation e)
  | Except.ok r => Except.ok r

/-- UserRepository.GetUserByID (repository lines 75-87): the error is
passed through unchanged (the code returns ErrNoRows as ErrNoRows and any
other error as itself); the row is converted field by field, keeping the
password. -/
def repoGetUserByID (db : UsersDb) (id : Int) : Except GoError User :=
  sqlcGetUserByID db id

/-- UserRepository.UpdateUser (repository lines 138-177): runs the update
and maps uniqueness violations exactly as CreateUser does. -/
def repoUpdateUser (db : UsersDb) (now : Nat) (id : Int) (username email : String) :
    Except GoError UsersDb :=
  match sqlcUpdateUser db id username email now with
  | Except.error e => Except.error (mapUniqueViolation e)
  | Except.ok db2 => Except.ok db2

/-- UserRepository.DeleteUser (repository lines 205-214): the query error,
if any, is passed straight through; deleting a missing row is no error. -/
def repoDeleteUser (db : UsersDb) (id : Int) : Except GoError UsersDb :=
  sqlcDeleteUser db id

/-- UserRepository.UserExists (repository lines 217-226). -/
def repoUserExists (db : UsersDb) (email : String) : Bool :=
  sqlcUserExists db email

/-- Ordering used by the listing queries: ORDER BY created_at DESC. -/
def crDesc (a b : User) : Prop := b.createdAt ≤ a.createdAt

instance : DecidableRel crDesc :=
  fun a b => inferInstanceAs (Decidable (b.createdAt ≤ a.createdAt))

instance : IsTotal User crDesc :=
  ⟨fun a b => Nat.le_total b.createdAt a.createdAt⟩

instance : IsTrans User crDesc :=
  ⟨fun _ _ _ hab hbc => Nat.le_trans hbc hab⟩

/-- The rows in the order produced by ORDER BY created_at DESC. -/
def sortedByCreatedDesc (rows : List User) : List User :=
  rows.insertionSort crDesc

/-- Column projection of the listing queries: id, username, email,
created_at, updated_at are selected, so the password comes back as the Go
zero value (the empty string). -/
def publicView (u : User) : User :=
  { u with password := "" }

/-- The full listing as GetUsersWithPagination sees it before the window is
applied: sorted by creation time descending, password omitted. -/
def publicSorted (db : UsersDb) : List User :=
  (sortedByCreatedDesc db.rows).map publicView

/-- Query layer GetUsersWithPagination (users.sql lines 37-41): ORDER BY
created_at DESC LIMIT $1 OFFSET $2. -/
def sqlcGetUsersWithPagination (db : UsersDb) (limit offset : Int) : List User :=
  ((publicSorted db).drop offset.toNat).take limit.toNat

/-- UserRepository.GetUsersWithPagination (repository lines 229-264):
passes limit and offset through and converts rows field by field. -/
def repoGetUsersWithPagination (db : UsersDb) (limit offset : Int) : List User :=
  sqlcGetUsersWithPagination db limit offset

/-- UserRepository.CountUsers (repository lines 267-276). -/
def repoCountUsers (db : UsersDb) : Int :=
  sqlcCountUsers db

/-! Go strconv.Atoi and the handler helpers built on it. -/

/-- Value of a non-empty all-digit character list, read in base 10; none
when the list is empty or holds a non-digit. -/
def digitsVal? (cs : List Char) : Option Nat :=
  if cs ≠ [] ∧ cs.all (fun c => c.isDigit) then
    some (cs.foldl (fun a c => a * 10 + (c.toNat - 48)) 0)
  else none

/-- Mathematical reading of a decimal integer: an optional single sign
followed by at least one digit, with unbounded value. -/
def parseSignedDec (s : String) : Option Int :=
  match s.data with
  | [] => none
  | c :: rest =>
    if c = '+' then (digitsVal? rest).map (fun n => (n : Int))
    else if c = '-' then (digitsVal? rest).map (fun n => -(n : Int))
    else (digitsVal? (c :: rest)).map (fun n => (n : Int))

def int64Min : Int := -9223372036854775808

def int64Max : Int := 9223372036854775807

/-- Go strconv.Atoi on a 64-bit platform: parses an optionally signed
decimal and reports an error for malformed input and for values outside
the 64-bit signed range (callers of Atoi see err non-nil on range
overflow). -/
def goAtoi (s : String) : Except Unit Int :=
  match parseSignedDec s with
  | none => Except.error ()
  | some v =>
    if v < int64Min ∨ int64Max < v then Except.error () else Except.ok v

/-- Two-sided complement wrap of the Go conversion int32(id). -/
def int32ofInt (v : Int) : Int :=
  (v + 2147483648) % 4294967296 - 2147483648

/-- UserHandler.parseUserID (handler lines 300-309): Atoi, then reject a
non-positive value, then narrow to int32. -/
def parseUserID (idStr : String) : Except String Int :=
  match goAtoi idStr with
  | Except.error _ => Except.error "invalid user ID"
  | Except.ok id =>
    if id ≤ 0 then Except.error "user ID must be positive"
    else Except.ok (int32ofInt id)

/-- UserHandler.parseIntQuery (handler lines 311-329): empty means the
default, a malformed integer is an error, and an integer value is clamped
first from below and then from above. -/
def parseIntQuery (value : String) (defaultValue minV maxV : Int) : Except Unit Int :=
  if value = "" then Except.ok defaultValue
  else
    match goAtoi value with
    | Except.error _ => Except.error ()
    | Except.ok result =>
      let r1 := if result < minV then minV else result
      let r2 := if maxV < r1 then maxV else r1
      Except.ok r2

/-! Handler layer.  A handler run is modelled as the JSON status and
message it writes, the resulting store, and whether any repository
operation was invoked.  Request-body binding validation is outside the
claims treated here, so bound request fields are taken as inputs. -/

structure JsonResp where
  status : Nat
  msg : Option String
deriving Repr, DecidableEq

structure HandlerOut where
  resp : JsonResp
  db : UsersDb
  repoCalled : Bool
deriving Repr, DecidableEq

/-- The 409 classification attempted by the create and update handlers
(handler lines 71-84 and 193-206): a PgError with code 23505 whose
constraint name matches the email or username uniqueness rule yields the
corresponding conflict message; anything else yields none. -/
def handlerConflict409 (e : GoError) : Option String :=
  match e with
  | GoError.pgError code _ cname =>
    if code == "23505" then
      if cname == "users_email_unique" || cname == "users_email_key" then
        some "User with this email already exists"
      else if cname == "users_username_unique" || cname == "users_username_key" then
        some "User with this username already exists"
      else none
    else none
  | _ => none

/-- UserHandler.CreateUser (handler lines 28-95): pre-check UserExists on
the email, hash the password, call the repository, classify the error. -/
def handlerCreateUser (hash : String → String) (db : UsersDb) (now : Nat)
    (username email password : String) : HandlerOut :=
  if repoUserExists db email then
    ⟨⟨409, some "User with this email already exists"⟩, db, true⟩
  else
    match repoCreateUser db now username email (hash password) with
    | Except.error e =>
      match handlerConflict409 e with
      | some m => ⟨⟨409, some m⟩, db, true⟩
      | none => ⟨⟨500, some "Failed to create user"⟩, db, true⟩
    | Except.ok (_, db2) => ⟨⟨201, some "User created successfully"⟩, db2, true⟩

/-- UserHandler.GetUserByID (handler lines 119-145). -/
def handlerGetUserByID (db : UsersDb) (idStr : String) : HandlerOut :=
  match parseUserID idStr with
  | Except.error m => ⟨⟨400, some m⟩, db, false⟩
  | Except.ok uid =>
    match repoGetUserByID db uid with
    | Except.error GoError.sqlErrNoRows => ⟨⟨404, some "User not found"⟩, db, true⟩
    | Except.error _ => ⟨⟨500, some "Failed to retrieve user"⟩, db, true⟩
    | Except.ok _ => ⟨⟨200, none⟩, db, true⟩

/-- UserHandler.UpdateUser (handler lines 148-217): parse the id, verify
existence through GetUserByID, run the update, classify the error. -/
def handlerUpdateUser (db : UsersDb) (now : Nat) (idStr username email : String) :
    HandlerOut :=
  match parseUserID idStr with
  | Except.error m => ⟨⟨400, some m⟩, db, false⟩
  | Except.ok uid =>
    match repoGetUserByID db uid with
    | Except.error GoError.sqlErrNoRows => ⟨⟨404, some "User not found"⟩, db, true⟩
    | Except.error _ => ⟨⟨500, some "Failed to retrieve user"⟩, db, true⟩
    | Except.ok _ =>
      match repoUpdateUser db now uid username email with
      | Except.error e =>
        match handlerConflict409 e with
        | some m => ⟨⟨409, some m⟩, db, true⟩
        | none => ⟨⟨500, some "Failed to update user"⟩, db, true⟩
      | Except.ok db2 => ⟨⟨200, some "User updated successfully"⟩, db2, true⟩

/-- UserHandler.DeleteUser (handler lines 220-247): the existence check
that decides between 404 and 500 sits inside the branch taken only when
the repository delete reported an error. -/
def handlerDeleteUser (db : UsersDb) (idStr : String) : HandlerOut :=
  match parseUserID idStr with
  | Except.error m => ⟨⟨400, some m⟩, db, false⟩
  | Except.ok uid =>
    match repoDeleteUser db uid with
    | Except.error _ =>
      match repoGetUserByID db uid with
      | Except.error GoError.sqlErrNoRows => ⟨⟨404, some "User not found"⟩, db, true⟩
      | _ => ⟨⟨500, some "Failed to delete user"⟩, db, true⟩
    | Except.ok db2 => ⟨⟨200, some "User deleted successfully"⟩, db2, true⟩

/-- Result of the pagination endpoint: status, error message, page,
echoed window and total. -/
structure PageOut where
  status : Nat
  msg : Option String
  users : List User
  limit : Int
  offset : Int
  total : Int
deriving Repr, DecidableEq

/-- UserHandler.GetUsersWithPagination (handler lines 250-296). -/
def handlerGetUsersWithPagination (db : UsersDb) (limitStr offsetStr : String) :
    PageOut :=
  match parseIntQuery limitStr 10 1 100 with
  | Except.error _ => ⟨400, some "Invalid limit parameter", [], 0, 0, 0⟩
  | Except.ok limit =>
    match parseIntQuery offsetStr 0 0 1000000 with
    | Except.error _ => ⟨400, some "Invalid offset parameter", [], 0, 0, 0⟩
    | Except.ok offset =>
      ⟨200, none, repoGetUsersWithPagination db limit offset, limit, offset,
        repoCountUsers db⟩

/-! Middleware pipeline (core/middleware/middleware.go, wired in
core/server setupRouter lines 67-86 in the order RequestID, Logger,
Recovery, ErrorHandler, CORS, then the routed handler).

The request context tracks the inbound method and X-Request-ID header,
the response headers the chain writes (the X-Request-ID echo and the
three CORS headers as dedicated fields), the written status, the gin
error list, the abort flag, and two observation flags: whether the routed
handler ran and whether the ErrorHandler stage wrote its 500 response. -/

structure Ctx where
  method : String
  reqXRequestID : String
  respXRequestID : String
  corsAllowOrigin : String
  corsAllowMethods : String
  corsAllowHeaders : String
  status : Nat
  errors : List String
  aborted : Bool
  handlerRan : Bool
  errorHandlerWrote : Bool
  requestIDVar : String

/-- A fresh per-request context: nothing written yet. -/
def Ctx.init (method reqRid : String) : Ctx :=
  { method := method, reqXRequestID := reqRid, respXRequestID := "",
    corsAllowOrigin := "", corsAllowMethods := "", corsAllowHeaders := "",
    status := 0, errors := [], aborted := false, handlerRan := false,
    errorHandlerWrote := false, requestIDVar := "" }

/-- A middleware receives the context and the continuation for the rest of
the chain; aborting is expressed by not invoking the continuation. -/
abbrev Middleware := Ctx → (Ctx → Ctx) → Ctx

def hexDigitChar (n : Nat) : Char :=
  "0123456789abcdef".data.getD (n % 16) '0'

/-- encoding/hex EncodeToString: two hex characters per byte. -/
def hexEncode : List Nat → List Char
  | [] => []
  | b :: bs => hexDigitChar ((b % 256) / 16) :: hexDigitChar (b % 16) :: hexEncode bs

def fallbackCharset : List Char :=
  "abcdefghijklmnopqrstuvwxyzABCDEFGHIJKLMNOPQRSTUVWXYZ0123456789".data

/-- randomString (middleware lines 63-74): when crypto/rand succeeds, hex
encode the random bytes and keep the first length characters; when it
fails, fill from the fixed charset by index. -/
def randomString (randOk : Bool) (bytes : Nat → Nat) (length : Nat) : String :=
  if randOk then
    String.mk ((hexEncode ((List.range length).map bytes)).take length)
  else
    String.mk ((List.range length).map (fun i => fallbackCharset.getD (i % 62) 'a'))

/-- generateRequestID (middleware lines 59-61). -/
def generateRequestID (randOk : Bool) (bytes : Nat → Nat) : String :=
  "req-" ++ randomString randOk bytes 8

/-- RequestID middleware (middleware lines 46-56): keep a non-empty
client-supplied X-Request-ID, otherwise generate one; store it in the
context and echo it in the response header, then continue. -/
def mwRequestID (randOk : Bool) (bytes : Nat → Nat) : Middleware :=
  fun c next =>
    let rid := if c.reqXRequestID = "" then generateRequestID randOk bytes
               else c.reqXRequestID
    next { c with requestIDVar := rid, respXRequestID := rid }

/-- gin.Logger: logging only, no response mutation. -/
def mwLogger : Middleware := fun c next => next c

/-- gin.Recovery: panic containment; the embedded fragment raises no
panic, so it simply continues. -/
def mwRecovery : Middleware := fun c next => next c

/-- ErrorHandler middleware (middleware lines 29-43): run the rest of the
chain, then write the uniform 500 body when the gin error list is
non-empty. -/
def mwErrorHandler : Middleware :=
  fun c next =>
    let c2 := next c
    if c2.errors = [] then c2
    else { c2 with status := 500, errorHandlerWrote := true }

/-- CORS middleware (middleware lines 13-26): always set the three CORS
headers; short-circuit an OPTIONS request with 204, otherwise continue. -/
def mwCORS : Middleware :=
  fun c next =>
    let hdrMethods := "GET, POST, PUT, DELETE, OPTIONS"
    let hdrAllowed := "Origin, Content-Type, Content-Length, Accept-Encoding, X-CSRF-Token, Authorization"
    let c2 := { c with corsAllowOrigin := "*", corsAllowMethods := hdrMethods, corsAllowHeaders := hdrAllowed }
    if c2.method = "OPTIONS" then { c2 with status := 204, aborted := true }
    else next c2

def runChain : List Middleware → (Ctx → Ctx) → Ctx → Ctx
  | [], h, c => h c
  | m :: ms, h, c => m c (runChain ms h)

/-- The full pipeline in the order wired by setupRouter. -/
def runPipeline (randOk : Bool) (bytes : Nat → Nat) (handler : Ctx → Ctx)
    (c : Ctx) : Ctx :=
  runChain [mwRequestID randOk bytes, mwLogger, mwRecovery, mwErrorHandler, mwCORS]
    handler c

/-- The Ping handler (core/handlers/health.go lines 22-26): writes 200 and
touches neither the response headers nor the request id. -/
def pingHandler : Ctx → Ctx :=
  fun c => { c with status := 200, handlerRan := true }

/-! Theorems. -/

/-- Decidable equality for Except values, so concrete repository results
can be checked by evaluation. -/
def exceptDecEq {ε α : Type} [DecidableEq ε] [DecidableEq α] :
    DecidableEq (Except ε α) := fun a b =>
  match a, b with
  | Except.error e, Except.error f =>
    if h : e = f then isTrue (by rw [h])
    else isFalse (fun hc => h (Except.error.inj hc))
  | Except.error _, Except.ok _ => isFalse (fun hc => Except.noConfusion hc)
  | Except.ok _, Except.error _ => isFalse (fun hc => Except.noConfusion hc)
  | Except.ok x, Except.ok y =>
    if h : x = y then isTrue (by rw [h])
    else isFalse (fun hc => h (Except.ok.inj hc))

instance {ε α : Type} [DecidableEq ε] [DecidableEq α] : DecidableEq (Except ε α) :=
  exceptDecEq

/-- Stores used by the concrete counterexamples and witnesses. -/
def c1Store : UsersDb :=
  ⟨[⟨1, "johndoe", "john@example.com", "h", 5, 5⟩], 2⟩

def c1Store2 : UsersDb :=
  ⟨[⟨1, "johndoe", "john@example.com", "h", 1, 1⟩,
    ⟨2, "janedoe", "jane@example.com", "h", 2, 2⟩], 3⟩

/-- C1: the claim says a create or update hitting a uniqueness violation
always surfaces as a 409 ConflictError naming the field.  In the code the
repository re-wraps the unique-violation PgError without its constraint
name, so the handler branches keyed on the constraint name never match:
creating a user with a taken username (and a fresh email, so the
pre-check passes) answers 500, and an update onto a taken username also
answers 500 although the storage layer reported the uniqueness violation
by name. -/
theorem C1_conflict_surfaces_as_500 :
    sqlcCreateUser c1Store "johndoe" "jane@example.com" "pw" 9 =
      Except.error (GoError.pgError "23505" dupKeyMsg "users_username_key") ∧
    repoCreateUser c1Store 9 "johndoe" "jane@example.com" "pw" =
      Except.error (GoError.pgError "23505" "user with this username already exists" "") ∧
    (handlerCreateUser (fun s => s) c1Store 9 "johndoe" "jane@example.com" "pw").resp =
      ⟨500, some "Failed to create user"⟩ ∧
    (handlerUpdateUser c1Store2 9 "2" "johndoe" "jane@example.com").resp =
      ⟨500, some "Failed to update user"⟩ := by
  decide

/-- C2: the claim says deleting an identifier with no matching row fails
with 404.  The delete query is an exec statement that reports no error
when nothing matched, and the handler only performs its existence check
inside the branch taken when the repository returned an error, so a
delete of a missing user answers 200 User deleted successfully. -/
theorem C2_delete_missing_returns_200 :
    repoDeleteUser ⟨[⟨1, "a", "a@x", "p", 1, 1⟩], 2⟩ 2 =
      Except.ok ⟨[⟨1, "a", "a@x", "p", 1, 1⟩], 2⟩ ∧
    (handlerDeleteUser ⟨[⟨1, "a", "a@x", "p", 1, 1⟩], 2⟩ "2").resp =
      ⟨200, some "User deleted successfully"⟩ := by
  decide

/-- C3 counterexample: the repository boundary hands back raw
storage-driver error values, not domain taxonomy kinds: a lookup of a
missing user returns the database/sql ErrNoRows sentinel itself, and a
uniqueness violation on create returns a pgconn.PgError value. -/
theorem C3_counterexample_raw_driver_error :
    repoGetUserByID ⟨[], 1⟩ 7 = Except.error GoError.sqlErrNoRows ∧
    isRawDriverError GoError.sqlErrNoRows = true ∧
    repoCreateUser c1Store 9 "johndoe" "x@y" "pw" =
      Except.error (GoError.pgError "23505" "user with this username already exists" "") ∧
    isRawDriverError
      (GoError.pgError "23505" "user with this username already exists" "") = true := by
  decide

/-- Every GoError value is a raw storage-driver error. -/
theorem isRawDriverError_true (e : GoError) : isRawDriverError e = true := by
  cases e <;> rfl

/-- C3 amended: the repository does not classify failures into a domain
taxonomy; it passes every storage error through unchanged across its
boundary, except that create and update replace a recognized
unique-violation PgError with a freshly built PgError (code 23505,
message naming the field, empty constraint name) - still a raw driver
error value. -/
theorem C3_amended_raw_errors_pass_through (e : GoError) :
    isRawDriverError (mapUniqueViolation e) = true ∧
    (mapUniqueViolation e = e ∨
      mapUniqueViolation e =
        GoError.pgError "23505" "user with this email already exists" "" ∨
      mapUniqueViolation e =
        GoError.pgError "23505" "user with this username already exists" "") ∧
    (∀ db : UsersDb, ∀ id : Int, repoGetUserByID db id = sqlcGetUserByID db id) ∧
    (∀ db : UsersDb, ∀ id : Int, repoDeleteUser db id = sqlcDeleteUser db id) := by
  refine ⟨isRawDriverError_true _, ?_, fun _ _ => rfl, fun _ _ => rfl⟩
  cases e with
  | pgError code msg cname =>
    simp only [mapUniqueViolation]
    split
    · split
      · exact Or.inr (Or.inl rfl)
      · split
        · exact Or.inr (Or.inr rfl)
        · exact Or.inl rfl
    · exact Or.inl rfl
  | sqlErrNoRows => exact Or.inl rfl
  | driverFailure m => exact Or.inl rfl

/-- C5: an OPTIONS request is short-circuited by the CORS stage with 204
no matter what the routed handler would do: the handler never runs, the
error-surfacing stage writes nothing, and the request is aborted. -/
theorem C5_options_short_circuit (randOk : Bool) (bytes : Nat → Nat)
    (handler : Ctx → Ctx) (reqRid : String) :
    (runPipeline randOk bytes handler (Ctx.init "OPTIONS" reqRid)).status = 204 ∧
    (runPipeline randOk bytes handler (Ctx.init "OPTIONS" reqRid)).handlerRan = false ∧
    (runPipeline randOk bytes handler (Ctx.init "OPTIONS" reqRid)).errorHandlerWrote = false ∧
    (runPipeline randOk bytes handler (Ctx.init "OPTIONS" reqRid)).aborted = true := by
  by_cases h : reqRid = "" <;>
    simp [runPipeline, runChain, mwRequestID, mwLogger, mwRecovery, mwErrorHandler,
      mwCORS, Ctx.init, h]

theorem hexEncode_length (bs : List Nat) : (hexEncode bs).length = 2 * bs.length := by
  induction bs with
  | nil => rfl
  | cons b bs ih => simp [hexEncode, ih]; omega

theorem randomString_length (randOk : Bool) (bytes : Nat → Nat) :
    (randomString randOk bytes 8).length = 8 := by
  cases randOk <;>
    simp [randomString, String.length, hexEncode_length]

theorem generateRequestID_length (randOk : Bool) (bytes : Nat → Nat) :
    (generateRequestID randOk bytes).length = 12 := by
  simp [generateRequestID, String.length_append, randomString_length]
  decide

/-- C6: the response carries an X-Request-ID header equal to the
correlation identifier established for the request: the client-supplied
header when it is non-empty, otherwise a freshly generated identifier,
which has 12 characters and so at least 8.  The hypothesis states that
the routed handler does not touch the X-Request-ID response header or the
stored correlation id, which holds for every handler in the service. -/
theorem C6_response_carries_request_id (randOk : Bool) (bytes : Nat → Nat)
    (method reqRid : String) (handler : Ctx → Ctx)
    (hpres : ∀ c : Ctx, (handler c).respXRequestID = c.respXRequestID ∧
      (handler c).requestIDVar = c.requestIDVar) :
    (runPipeline randOk bytes handler (Ctx.init method reqRid)).respXRequestID =
      (runPipeline randOk bytes handler (Ctx.init method reqRid)).requestIDVar ∧
    (runPipeline randOk bytes handler (Ctx.init method reqRid)).requestIDVar =
      (if reqRid = "" then generateRequestID randOk bytes else reqRid) ∧
    (reqRid = "" → 8 ≤ (generateRequestID randOk bytes).length) := by
  refine ⟨?_, ?_, fun _ => by rw [generateRequestID_length]; omega⟩ <;>
  · by_cases hr : reqRid = "" <;>
      by_cases hm : method = "OPTIONS" <;>
      simp only [runPipeline, runChain, mwRequestID, mwLogger, mwRecovery,
        mwErrorHandler, mwCORS, Ctx.init, hr, hm, if_true, if_false,
        if_pos, if_neg, ite_true, ite_false] <;>
      first
        | simp [hm, hr]
        | (split <;> simp [hm, hr, hpres])

/-- Witness for C6: the Ping handler through the full pipeline, with a
deterministic entropy source, and once with no client X-Request-ID and
once with one supplied. -/
theorem C6_witness :
    (runPipeline true (fun _ => 0) pingHandler (Ctx.init "GET" "")).respXRequestID =
      "req-00000000" ∧
    (runPipeline true (fun _ => 0) pingHandler (Ctx.init "GET" "client-id-1")).respXRequestID =
      "client-id-1" := by
  have hpres : ∀ c : Ctx, (pingHandler c).respXRequestID = c.respXRequestID ∧
      (pingHandler c).requestIDVar = c.requestIDVar := fun _ => ⟨rfl, rfl⟩
  have h1 := C6_response_carries_request_id true (fun _ => 0) "GET" "" pingHandler hpres
  have h2 := C6_response_carries_request_id true (fun _ => 0) "GET" "client-id-1"
    pingHandler hpres
  refine ⟨?_, ?_⟩
  · rw [h1.1, h1.2.1]
    decide
  · rw [h2.1, h2.2.1]
    decide

/-- C4 counterexample: a pagination request with a non-integer limit is
rejected with 400, so pagination requests are not never-rejected. -/
theorem C4_counterexample_malformed_rejected :
    (handlerGetUsersWithPagination ⟨[], 1⟩ "abc" "").status = 400 ∧
    (handlerGetUsersWithPagination ⟨[], 1⟩ "abc" "").msg =
      some "Invalid limit parameter" := by
  decide

theorem parseIntQuery_goAtoi_ok (s : String) (v d mn mx : Int) (hmn : mn ≤ mx)
    (hok : goAtoi s = Except.ok v) :
    parseIntQuery s d mn mx = Except.ok (min mx (max mn v)) := by
  have hne : s ≠ "" := by
    intro he
    rw [he, show goAtoi "" = Except.error () from by decide] at hok
    exact Except.noConfusion hok
  simp only [parseIntQuery, if_neg hne, hok]
  congr 1
  simp only [min_def, max_def]
  split_ifs <;> omega

/-- C4 amended: an absent limit or offset takes its default (10 and 0), an
integer value is clamped to the nearest bound of [1,100] and [0,1000000]
respectively, and a request whose parameters are absent or integers is
answered 200 with the clamped window; only a non-integer parameter is
rejected. -/
theorem C4_pagination_clamped (db : UsersDb) :
    ((handlerGetUsersWithPagination db "" "").status = 200 ∧
      (handlerGetUsersWithPagination db "" "").limit = 10 ∧
      (handlerGetUsersWithPagination db "" "").offset = 0) ∧
    (∀ s : String, ∀ v : Int, goAtoi s = Except.ok v →
      parseIntQuery s 10 1 100 = Except.ok (min 100 (max 1 v)) ∧
      parseIntQuery s 0 0 1000000 = Except.ok (min 1000000 (max 0 v))) ∧
    (∀ ls os : String, ∀ lv ov : Int,
      (ls = "" ∨ goAtoi ls = Except.ok lv) → (os = "" ∨ goAtoi os = Except.ok ov) →
      (handlerGetUsersWithPagination db ls os).status = 200 ∧
      1 ≤ (handlerGetUsersWithPagination db ls os).limit ∧
      (handlerGetUsersWithPagination db ls os).limit ≤ 100 ∧
      0 ≤ (handlerGetUsersWithPagination db ls os).offset ∧
      (handlerGetUsersWithPagination db ls os).offset ≤ 1000000) := by
  refine ⟨?_, ?_, ?_⟩
  · simp [handlerGetUsersWithPagination, parseIntQuery]
  · intro s v h
    exact ⟨parseIntQuery_goAtoi_ok s v 10 1 100 (by omega) h,
      parseIntQuery_goAtoi_ok s v 0 0 1000000 (by omega) h⟩
  · intro ls os lv ov hl ho
    have hL : ∃ l, parseIntQuery ls 10 1 100 = Except.ok l ∧ 1 ≤ l ∧ l ≤ 100 := by
      rcases hl with rfl | hl
      · exact ⟨10, by simp [parseIntQuery], by omega, by omega⟩
      · refine ⟨min 100 (max 1 lv), parseIntQuery_goAtoi_ok ls lv 10 1 100 (by omega) hl,
          ?_, ?_⟩ <;> simp [min_def, max_def] <;> split_ifs <;> omega
    have hO : ∃ o, parseIntQuery os 0 0 1000000 = Except.ok o ∧ 0 ≤ o ∧ o ≤ 1000000 := by
      rcases ho with rfl | ho
      · exact ⟨0, by simp [parseIntQuery], by omega, by omega⟩
      · refine ⟨min 1000000 (max 0 ov),
          parseIntQuery_goAtoi_ok os ov 0 0 1000000 (by omega) ho, ?_, ?_⟩ <;>
          simp [min_def, max_def] <;> split_ifs <;> omega
    obtain ⟨l, hl2, hl3, hl4⟩ := hL
    obtain ⟨o, ho2, ho3, ho4⟩ := hO
    simp [handlerGetUsersWithPagination, hl2, ho2, hl3, hl4, ho3, ho4]

/-- Witness for C4: the boundary examples from the spec, limit 500 clamps
to 100, limit 0 clamps to 1, offset -5 clamps to 0. -/
theorem C4_witness :
    parseIntQuery "500" 10 1 100 = Except.ok 100 ∧
    parseIntQuery "0" 10 1 100 = Except.ok 1 ∧
    parseIntQuery "-5" 0 0 1000000 = Except.ok 0 := by
  have h1 := ((C4_pagination_clamped ⟨[], 1⟩).2.1 "500" 500 (by decide)).1
  have h2 := ((C4_pagination_clamped ⟨[], 1⟩).2.1 "0" 0 (by decide)).1
  have h3 := ((C4_pagination_clamped ⟨[], 1⟩).2.1 "-5" (-5) (by decide)).2
  rw [show (min (100:Int) (max 1 500)) = 100 from by decide] at h1
  rw [show (min (100:Int) (max 1 0)) = 1 from by decide] at h2
  rw [show (min (1000000:Int) (max 0 (-5))) = 0 from by decide] at h3
  exact ⟨h1, h2, h3⟩

theorem parseUserID_rejects (s : String)
    (h : parseSignedDec s = none ∨ ∃ v, parseSignedDec s = some v ∧ v ≤ 0) :
    ∃ m, parseUserID s = Except.error m := by
  rcases h with h | ⟨v, hv, hvle⟩
  · exact ⟨"invalid user ID", by simp [parseUserID, goAtoi, h]⟩
  · by_cases hlt : v < int64Min
    · exact ⟨"invalid user ID", by simp [parseUserID, goAtoi, hv, hlt]⟩
    · have hmax : ¬ int64Max < v := by
        simp only [int64Max]; omega
      exact ⟨"user ID must be positive",
        by simp [parseUserID, goAtoi, hv, hlt, hmax, hvle]⟩

/-- C10: a path id that is not a decimal integer, or whose value is not
strictly positive, makes the GET, PUT and DELETE by-id handlers answer
400 before any repository operation is invoked. -/
theorem C10_bad_id_rejected_before_repo (idStr : String) (db : UsersDb) (now : Nat)
    (username email : String)
    (h : parseSignedDec idStr = none ∨ ∃ v, parseSignedDec idStr = some v ∧ v ≤ 0) :
    (handlerGetUserByID db idStr).resp.status = 400 ∧
    (handlerGetUserByID db idStr).repoCalled = false ∧
    (handlerUpdateUser db now idStr username email).resp.status = 400 ∧
    (handlerUpdateUser db now idStr username email).repoCalled = false ∧
    (handlerDeleteUser db idStr).resp.status = 400 ∧
    (handlerDeleteUser db idStr).repoCalled = false := by
  obtain ⟨m, hm⟩ := parseUserID_rejects idStr h
  simp [handlerGetUserByID, handlerUpdateUser, handlerDeleteUser, hm]

/-- Witness for C10: a non-numeric id and a negative id are both turned
away with 400 and no repository call. -/
theorem C10_witness :
    ((handlerGetUserByID ⟨[], 1⟩ "abc").resp.status = 400 ∧
      (handlerGetUserByID ⟨[], 1⟩ "abc").repoCalled = false ∧
      (handlerDeleteUser ⟨[], 1⟩ "abc").resp.status = 400) ∧
    ((handlerUpdateUser ⟨[], 1⟩ 0 "-3" "u" "e@x").resp.status = 400 ∧
      (handlerUpdateUser ⟨[], 1⟩ 0 "-3" "u" "e@x").repoCalled = false) := by
  have h1 := C10_bad_id_rejected_before_repo "abc" ⟨[], 1⟩ 0 "u" "e@x"
    (Or.inl (by decide))
  have h2 := C10_bad_id_rejected_before_repo "-3" ⟨[], 1⟩ 0 "u" "e@x"
    (Or.inr ⟨-3, by decide, by decide⟩)
  exact ⟨⟨h1.1, h1.2.1, h1.2.2.2.2.1⟩, h2.2.2.1, h2.2.2.2.1⟩

theorem updRow_frame (id : Int) (username email : String) (ts : Nat) (r : User) :
    (updRow id username email ts r).password = r.password ∧
    (updRow id username email ts r).createdAt = r.createdAt ∧
    (updRow id username email ts r).id = r.id ∧
    (r.id ≠ id → updRow id username email ts r = r) ∧
    (r.id = id →
      (updRow id username email ts r).username = username ∧
      (updRow id username email ts r).email = email ∧
      (updRow id username email ts r).updatedAt = ts ∧
      (email = r.email → (updRow id username email ts r).email = r.email)) := by
  by_cases hr : r.id = id <;>
    simp [updRow, hr]

/-- C7: a successful update writes only the username, email and
updated-at columns of rows whose id matches: the updated store is the
old store with exactly that row transformation applied to each row, the
transformation fixes every row whose id differs, preserves password,
created-at and id everywhere, and in particular an update that keeps the
old email value does not alter the email. -/
theorem C7_update_frame (db : UsersDb) (now : Nat) (id : Int)
    (username email : String) (db2 : UsersDb)
    (hok : repoUpdateUser db now id username email = Except.ok db2) :
    db2.nextId = db.nextId ∧
    db2.rows = db.rows.map (updRow id username email now) ∧
    (∀ r : User,
      (updRow id username email now r).password = r.password ∧
      (updRow id username email now r).createdAt = r.createdAt ∧
      (updRow id username email now r).id = r.id ∧
      (r.id ≠ id → updRow id username email now r = r) ∧
      (r.id = id →
        (updRow id username email now r).username = username ∧
        (updRow id username email now r).email = email ∧
        (updRow id username email now r).updatedAt = now ∧
        (email = r.email → (updRow id username email now r).email = r.email))) := by
  have hmain : db2.nextId = db.nextId ∧
      db2.rows = db.rows.map (updRow id username email now) := ?_
  · exact ⟨hmain.1, hmain.2, fun r => updRow_frame id username email now r⟩
  cases hsq : sqlcUpdateUser db id username email now with
  | error e =>
    rw [repoUpdateUser, hsq] at hok
    exact Except.noConfusion hok
  | ok d =>
    rw [repoUpdateUser, hsq] at hok
    have hd : d = db2 := Except.ok.inj hok
    subst hd
    rw [sqlcUpdateUser] at hsq
    split at hsq
    · rename_i hall
      have hdb : db = d := Except.ok.inj hsq
      subst hdb
      refine ⟨rfl, ?_⟩
      have hfix : ∀ r ∈ db.rows, (fun a => a) r = updRow id username email now r := by
        intro r hr
        have := List.all_eq_true.mp hall r hr
        simp only [bne_iff_ne, ne_eq] at this
        simp [updRow, this]
      calc db.rows = db.rows.map (fun a => a) := (List.map_id' db.rows).symm
        _ = db.rows.map (updRow id username email now) := List.map_congr_left hfix
    · split at hsq
      · exact Except.noConfusion hsq
      · split at hsq
        · exact Except.noConfusion hsq
        · have := Except.ok.inj hsq
          rw [← this]
          exact ⟨rfl, rfl⟩

def c7Db : UsersDb := ⟨[⟨1, "a", "a@x", "pw", 3, 3⟩], 2⟩

def c7Db2 : UsersDb := ⟨[⟨1, "b", "a@x", "pw", 3, 9⟩], 2⟩

/-- Witness for C7: an update that only changes the username succeeds and
the resulting store is the pointwise row transformation of the old one. -/
theorem C7_witness :
    repoUpdateUser c7Db 9 1 "b" "a@x" = Except.ok c7Db2 ∧
    c7Db2.nextId = c7Db.nextId ∧
    c7Db2.rows = c7Db.rows.map (updRow 1 "b" "a@x" 9) := by
  have h0 : repoUpdateUser c7Db 9 1 "b" "a@x" = Except.ok c7Db2 := by decide
  have h := C7_update_frame c7Db 9 1 "b" "a@x" c7Db2 h0
  exact ⟨h0, h.1, h.2.1⟩

theorem publicSorted_sorted (db : UsersDb) : (publicSorted db).Sorted crDesc :=
  (List.sorted_insertionSort crDesc db.rows).map publicView (fun _ _ h => h)

theorem publicSorted_perm (db : UsersDb) :
    (publicSorted db).Perm (db.rows.map publicView) :=
  (List.perm_insertionSort crDesc db.rows).map publicView

theorem publicSorted_length (db : UsersDb) :
    (publicSorted db).length = db.rows.length := by
  rw [publicSorted, List.length_map, sortedByCreatedDesc]
  exact (List.perm_insertionSort crDesc db.rows).length_eq

theorem listPaged_take_drop (db : UsersDb) (l o : Int) :
    repoGetUsersWithPagination db l o = ((publicSorted db).drop o.toNat).take l.toNat :=
  rfl

theorem listPaged_sorted (db : UsersDb) (l o : Int) :
    (repoGetUsersWithPagination db l o).Sorted crDesc := by
  rw [listPaged_take_drop]
  exact List.Pairwise.sublist ((List.take_sublist _ _).trans (List.drop_sublist _ _))
    (publicSorted_sorted db)

/-- C8: over a store of 10 pairwise distinct users the windows (5,0) and
(5,5) are two disjoint 5-element pages whose concatenation is a
permutation of all 10 users (password scrubbed), each page ordered by
creation time descending; and in general a window returns at most limit
users, namely the slice of the creation-time-descending listing starting
at offset. -/
theorem C8_pagination_pages (db : UsersDb)
    (hlen : db.rows.length = 10)
    (hnd : (publicSorted db).Nodup) :
    (repoGetUsersWithPagination db 5 0).length = 5 ∧
    (repoGetUsersWithPagination db 5 5).length = 5 ∧
    (repoGetUsersWithPagination db 5 0).Disjoint (repoGetUsersWithPagination db 5 5) ∧
    (repoGetUsersWithPagination db 5 0 ++ repoGetUsersWithPagination db 5 5).Perm
      (db.rows.map publicView) ∧
    (repoGetUsersWithPagination db 5 0).Sorted crDesc ∧
    (repoGetUsersWithPagination db 5 5).Sorted crDesc ∧
    (∀ dbx : UsersDb, ∀ l o : Int,
      (repoGetUsersWithPagination dbx l o).length ≤ l.toNat ∧
      repoGetUsersWithPagination dbx l o = ((publicSorted dbx).drop o.toNat).take l.toNat ∧
      (repoGetUsersWithPagination dbx l o).Sorted crDesc) := by
  have hslen : (publicSorted db).length = 10 := by
    rw [publicSorted_length, hlen]
  have hd5 : ((publicSorted db).drop 5).take 5 = (publicSorted db).drop 5 :=
    List.take_of_length_le (by rw [List.length_drop]; omega)
  have happ : repoGetUsersWithPagination db 5 0 ++ repoGetUsersWithPagination db 5 5 =
      publicSorted db := by
    show ((publicSorted db).drop 0).take 5 ++ ((publicSorted db).drop 5).take 5 =
      publicSorted db
    rw [List.drop_zero, hd5]
    exact List.take_append_drop 5 (publicSorted db)
  refine ⟨?_, ?_, ?_, ?_, listPaged_sorted db 5 0, listPaged_sorted db 5 5,
    fun dbx l o => ⟨?_, listPaged_take_drop dbx l o, listPaged_sorted dbx l o⟩⟩
  · show (((publicSorted db).drop 0).take 5).length = 5
    rw [List.drop_zero, List.length_take]
    omega
  · show (((publicSorted db).drop 5).take 5).length = 5
    rw [List.length_take, List.length_drop]
    omega
  · have hnd2 : (repoGetUsersWithPagination db 5 0 ++
        repoGetUsersWithPagination db 5 5).Nodup := by
      rw [happ]; exact hnd
    exact (List.nodup_append.mp hnd2).2.2
  · rw [happ]
    exact publicSorted_perm db
  · rw [listPaged_take_drop, List.length_take]
    omega

def demoDb10 : UsersDb :=
  ⟨[⟨1, "u1", "e1@x", "p", 110, 110⟩, ⟨2, "u2", "e2@x", "p", 109, 109⟩,
    ⟨3, "u3", "e3@x", "p", 108, 108⟩, ⟨4, "u4", "e4@x", "p", 107, 107⟩,
    ⟨5, "u5", "e5@x", "p", 106, 106⟩, ⟨6, "u6", "e6@x", "p", 105, 105⟩,
    ⟨7, "u7", "e7@x", "p", 104, 104⟩, ⟨8, "u8", "e8@x", "p", 103, 103⟩,
    ⟨9, "u9", "e9@x", "p", 102, 102⟩, ⟨10, "u10", "e10@x", "p", 101, 101⟩], 11⟩

/-- Witness for C8: a concrete 10-user store split into two disjoint
pages of 5. -/
theorem C8_witness :
    (repoGetUsersWithPagination demoDb10 5 0).length = 5 ∧
    (repoGetUsersWithPagination demoDb10 5 5).length = 5 ∧
    (repoGetUsersWithPagination demoDb10 5 0).Disjoint
      (repoGetUsersWithPagination demoDb10 5 5) := by
  have h := C8_pagination_pages demoDb10 (by decide) (by decide)
  exact ⟨h.1, h.2.1, h.2.2.1⟩

theorem find?_append_of_none {α : Type} (p : α → Bool) (l1 l2 : List α)
    (h : l1.find? p = none) : (l1 ++ l2).find? p = l2.find? p := by
  induction l1 with
  | nil => rfl
  | cons a l ih =>
    cases hpa : p a with
    | true =>
      rw [List.find?_cons_of_pos _ hpa] at h
      exact Option.noConfusion h
    | false =>
      have hpa2 : ¬ p a = true := by rw [hpa]; exact Bool.false_ne_true
      rw [List.find?_cons_of_neg _ hpa2] at h
      rw [List.cons_append, List.find?_cons_of_neg _ hpa2]
      exact ih h

/-- C9: creating a user whose username and email differ from every stored
user succeeds (the storage invariant being that the SERIAL sequence value
is positive and unused), and looking the returned identifier up yields a
user with a positive identifier and equal created-at and updated-at
timestamps. -/
theorem C9_create_then_get (db : UsersDb) (now : Nat) (username email password : String)
    (hfresh : ∀ r ∈ db.rows, r.username ≠ username ∧ r.email ≠ email)
    (hpos : 0 < db.nextId)
    (hnew : ∀ r ∈ db.rows, r.id ≠ db.nextId) :
    ∃ u db2,
      repoCreateUser db now username email password = Except.ok (u, db2) ∧
      repoGetUserByID db2 u.id = Except.ok u ∧
      0 < u.id ∧ u.createdAt = u.updatedAt := by
  have hu : db.rows.any (fun r => r.username == username) = false := by
    rw [List.any_eq_false]
    intro r hr
    simp only [beq_iff_eq]
    exact (hfresh r hr).1
  have he : db.rows.any (fun r => r.email == email) = false := by
    rw [List.any_eq_false]
    intro r hr
    simp only [beq_iff_eq]
    exact (hfresh r hr).2
  refine ⟨⟨db.nextId, username, email, password, now, now⟩,
    ⟨db.rows ++ [⟨db.nextId, username, email, password, now, now⟩], db.nextId + 1⟩,
    ?_, ?_, hpos, rfl⟩
  · simp [repoCreateUser, sqlcCreateUser, hu, he]
  · have hnone : db.rows.find? (fun r => r.id == db.nextId) = none := by
      rw [List.find?_eq_none]
      intro r hr
      simp only [beq_iff_eq]
      exact hnew r hr
    show sqlcGetUserByID _ _ = _
    rw [sqlcGetUserByID]
    rw [find?_append_of_none _ _ _ hnone]
    simp [List.find?_cons_of_pos]

/-- Witness for C9: creating a user in the empty store and fetching it
back. -/
theorem C9_witness :
    ∃ u db2,
      repoCreateUser ⟨[], 1⟩ 5 "alice" "alice@example.com" "pw" = Except.ok (u, db2) ∧
      repoGetUserByID db2 u.id = Except.ok u ∧
      0 < u.id ∧ u.createdAt = u.updatedAt :=
  C9_create_then_get ⟨[], 1⟩ 5 "alice" "alice@example.com" "pw"
    (by decide) (by decide) (by decide)

end Valos
